import Mathlib

/-!
Verification development for the GitHub API client in
`Session1/AzFunction/queryGitHub.py`.

The Python module is shallowly embedded here:
pure control flow becomes Lean functions, exceptions become `Except`,
the HTTP transport becomes an explicit behaviour function supplied per
call (one outcome per attempt / per page), and `time.sleep` is recorded
as a list of requested delays (in seconds, as rationals).
-/

/-- Lowercasing of a string, mirroring Python's `str.lower()`
(`queryGitHub.py` uses it at lines 127, 329, 605). -/
def strLower (s : String) : String := ⟨s.data.map Char.toLower⟩

/-- Substring search on character lists: `hasSubstr h n = true` iff `n`
occurs contiguously in `h`.  This models Python's `needle in hay`. -/
def hasSubstr : List Char → List Char → Bool
  | [], needle => needle.isPrefixOf []
  | c :: t, needle => needle.isPrefixOf (c :: t) || hasSubstr t needle

/-- Python's `needle in hay` operator on strings. -/
def strContains (hay needle : String) : Bool := hasSubstr hay.data needle.data

/-- The exceptions the module can raise past `_make_request`
(`queryGitHub.py` lines 33-39 plus the `requests` library's own
exception type):
* `rateLimitError` — `RateLimitError(msg)`, a subclass of `GitHubAPIError`
  (raised at line 131);
* `gitHubAPIError` — a plain `GitHubAPIError(msg)` (raised at lines 134,
  139, 144, 165, 167, 256);
* `requestException` — a `requests.exceptions.RequestException` that is
  not a `Timeout`/`ConnectionError` and therefore escapes `_make_request`
  unconverted (lines 160-167 catch only those two). -/
inductive PyExc where
  | rateLimitError (msg : String)
  | gitHubAPIError (msg : String)
  | requestException
deriving DecidableEq, Repr

/-- The message carried by an exception (Python `str(e)`); for a raw
requests exception the module never inspects the message. -/
def excMsg : PyExc → String
  | .rateLimitError m => m
  | .gitHubAPIError m => m
  | .requestException => "requests exception"

/-- Whether `except (requests.exceptions.RequestException, RateLimitError)`
at line 55 catches the exception.  `RateLimitError` is caught explicitly;
a plain `GitHubAPIError` is neither a `RequestException` nor a
`RateLimitError`, so it is not caught. -/
def isRetryable : PyExc → Bool
  | .rateLimitError _ => true
  | .gitHubAPIError _ => false
  | .requestException => true

/-- Whether `except GitHubAPIError` (lines 250, 255, 328, 604) catches the
exception: it catches `GitHubAPIError` and its subclass `RateLimitError`,
but not a raw requests exception. -/
def isGHErr : PyExc → Bool
  | .rateLimitError _ => true
  | .gitHubAPIError _ => true
  | .requestException => false

/-- Message of line 131: `f"Rate limit exceeded. Try again in {wait_time} seconds."` -/
def rateLimitMsg (w : ℕ) : String :=
  "Rate limit exceeded. Try again in " ++ toString w ++ " seconds."

/-- Message of line 134: `f"Resource not found: {response.url}"` -/
def notFoundMsg (url : String) : String := "Resource not found: " ++ url

/-- Message of line 137: `f"GitHub API error {response.status_code}: {response.text}"` -/
def genericMsg (status : ℕ) (text : String) : String :=
  "GitHub API error " ++ toString status ++ ": " ++ text

/-- Message of line 144: `f"Invalid JSON response: {str(e)}"` -/
def invalidJsonMsg (e : String) : String := "Invalid JSON response: " ++ e

/-- Message of line 256: `f"Owner '{owner_name}' not found as organization or user"` -/
def ownerNotFoundMsg (name : String) : String :=
  "Owner '" ++ name ++ "' not found as organization or user"

/-- An HTTP response as `_handle_response` observes it: status code, the
two rate-limit headers, the body text, the request URL, and the result of
`response.json()` (`jsonData = none` models a `ValueError` whose message
is `jsonErr`).  `α` is the decoded payload type of the endpoint. -/
structure HttpResponse (α : Type) where
  status : ℕ
  rateLimitRemaining : Option ℤ
  rateLimitReset : Option ℤ
  text : String
  url : String
  jsonData : Option α
  jsonErr : String

/-- The `wait_time` computed at lines 128-130:
`max(0, int(headers.get('X-RateLimit-Reset', 0)) - int(time.time()))`.
On integers `max 0 (r - n) = (r - n).toNat` as a natural number. -/
def waitTime (resp : HttpResponse α) (now : ℤ) : ℕ :=
  (resp.rateLimitReset.getD 0 - now).toNat

/-- `GitHubAPIClient._handle_response` (`queryGitHub.py` lines 104-144).
The low-water-mark block at lines 119-125 only emits a log warning and has
no semantic effect, so it is omitted.  `response.ok` in the requests
library means `status_code < 400`.  `now` is `int(time.time())`. -/
def handle_response (resp : HttpResponse α) (now : ℤ) : Except PyExc α :=
  if resp.status = 403 ∧ strContains (strLower resp.text) "rate limit exceeded" = true then
    .error (.rateLimitError (rateLimitMsg (waitTime resp now)))
  else if resp.status = 404 then
    .error (.gitHubAPIError (notFoundMsg resp.url))
  else if 400 ≤ resp.status then
    .error (.gitHubAPIError (genericMsg resp.status resp.text))
  else
    match resp.jsonData with
    | some d => .ok d
    | none => .error (.gitHubAPIError (invalidJsonMsg resp.jsonErr))

/-- Outcome of one `self.session.get(...)` call (line 162): either a
response, or one of the transport-level exceptions distinguished by the
`except` clauses at lines 164-167. -/
inductive TransportResult (α : Type) where
  | ok (resp : HttpResponse α)
  | timeout
  | connError
  | otherReqExc

/-- The body of `GitHubAPIClient._make_request` (lines 147-167), before
the retry decorator is applied.  `beh attempt` is what the transport does
on the given attempt.  A `Timeout` is converted to
`GitHubAPIError("Request timeout")` (line 165), a `ConnectionError` to
`GitHubAPIError("Connection error")` (line 167); any other requests
exception escapes unconverted. -/
def make_request (beh : ℕ → TransportResult α) (now : ℤ) (attempt : ℕ) :
    Except PyExc α :=
  match beh attempt with
  | .ok resp => handle_response resp now
  | .timeout => .error (.gitHubAPIError "Request timeout")
  | .connError => .error (.gitHubAPIError "Connection error")
  | .otherReqExc => .error .requestException

/-- The `for attempt in range(max_retries + 1)` loop of
`retry_with_exponential_backoff` (lines 52-62).  `attempt` is the current
attempt index, `remaining` the number of attempts still allowed after this
one (`remaining = max_retries - attempt`, so `remaining = 0` is the
`attempt == max_retries` case of line 56).  Returns the list of sleeps
performed (line 62, `base_delay * (2 ** attempt)` seconds), the number of
calls made to the wrapped function, and its final outcome. -/
def retryLoop (op : ℕ → Except PyExc α) (baseDelay : ℚ) :
    ℕ → ℕ → List ℚ × ℕ × Except PyExc α
  | attempt, remaining =>
    match op attempt with
    | .ok v => ([], 1, .ok v)
    | .error e =>
      if isRetryable e then
        match remaining with
        | 0 => ([], 1, .error e)
        | r + 1 =>
          let rest := retryLoop op baseDelay (attempt + 1) r
          (baseDelay * 2 ^ attempt :: rest.1, rest.2.1 + 1, rest.2.2)
      else ([], 1, .error e)

/-- `retry_with_exponential_backoff(max_retries, base_delay)` applied to an
operation (lines 41-66).  The trailing `return func(*args, **kwargs)` at
line 64 is unreachable: the loop body always returns or raises on its last
iteration.  `op attempt` is the outcome of the wrapped call on the given
attempt. -/
def retry_with_exponential_backoff (maxRetries : ℕ) (baseDelay : ℚ)
    (op : ℕ → Except PyExc α) : List ℚ × ℕ × Except PyExc α :=
  retryLoop op baseDelay 0 maxRetries

/-- `_make_request` as actually exposed: decorated with
`@retry_with_exponential_backoff(max_retries=3)` (line 146), with the
default `base_delay = 1.0`. -/
def retried_make_request (beh : ℕ → TransportResult α) (now : ℤ) :
    List ℚ × ℕ × Except PyExc α :=
  retry_with_exponential_backoff 3 1 (make_request beh now)

/-- The `while True` pagination loop of `GitHubAPIClient.get_repositories`
(lines 198-229).  `pageResult page` is the outcome of the retried
`self._make_request(endpoint, params)` call for the given 1-based page
number (items are represented by naturals), `pp` is
`params['per_page'] = min(per_page, 100)` (line 206).  The loop breaks on
an empty page (line 214), on a short page (line 220), or once the
incremented page number exceeds 100 (line 226); `fuel` counts the page
increments still allowed, so `fuel = 100 - page` and `fuel = 0` is the
`page > 100` safety check.  Returns the accumulated repositories and the
number of page requests made. -/
def reposLoop (pageResult : ℕ → Except PyExc (List ℕ)) (pp : ℕ) :
    ℕ → ℕ → List ℕ → ℕ → Except PyExc (List ℕ) × ℕ
  | fuel, page, acc, reqs =>
    match pageResult page with
    | .error e => (.error e, reqs + 1)
    | .ok data =>
      if data.isEmpty then (.ok acc, reqs + 1)
      else if data.length < pp then (.ok (acc ++ data), reqs + 1)
      else
        match fuel with
        | 0 => (.ok (acc ++ data), reqs + 1)
        | f + 1 => reposLoop pageResult pp f (page + 1) (acc ++ data) (reqs + 1)

/-- `GitHubAPIClient.get_repositories` pagination (lines 169-231), starting
at `page = 1` with an empty accumulator.  Owner-name validation and
owner-type resolution (lines 184-196) precede the loop and are modelled
separately (`detect_owner_type`); the endpoint string does not affect the
loop.  Returns the result together with the number of page requests. -/
def get_repositories (pageResult : ℕ → Except PyExc (List ℕ)) (perPage : ℕ) :
    Except PyExc (List ℕ) × ℕ :=
  reposLoop pageResult (min perPage 100) 99 1 [] 0

/-- A provider holding a fixed total of `N` items served in pages of size
`P`: page `p` (1-based) returns items `(p-1)*P` up to `p*P` (exclusive),
so full pages of `P` items followed by a final partial or empty page. -/
def fixedTotalPages (N P : ℕ) : ℕ → Except PyExc (List ℕ) :=
  fun page => .ok (((List.range N).drop ((page - 1) * P)).take P)

/-- `GitHubAPIClient._detect_owner_type` (lines 233-256) as a function of
the outcomes of its two probes, each an already-retried `_make_request`
against `orgs/{name}` resp. `users/{name}` (payload irrelevant, `Unit`).
Both `except GitHubAPIError` clauses catch `GitHubAPIError` and its
subclass `RateLimitError` but not a raw requests exception; when both
probes fail with caught errors, a fresh `GitHubAPIError` naming the owner
is raised (line 256). -/
def detect_owner_type (name : String) (orgRes userRes : Except PyExc Unit) :
    Except PyExc String :=
  match orgRes with
  | .ok _ => .ok "org"
  | .error e =>
    match e with
    | .requestException => .error .requestException
    | _ =>
      match userRes with
      | .ok _ => .ok "user"
      | .error e2 =>
        match e2 with
        | .requestException => .error .requestException
        | _ => .error (.gitHubAPIError (ownerNotFoundMsg name))

/-- `_detect_owner_type` composed with the real probe pipeline: each probe
is the decorated `_make_request` run against its own transport behaviour
(the Python evaluates the user probe only when the org probe fails; both
probes are pure here, so evaluating both is equivalent). -/
def detect_owner_type_net (name : String)
    (orgBeh userBeh : ℕ → TransportResult Unit) (now : ℤ) :
    Except PyExc String :=
  detect_owner_type name
    (retried_make_request orgBeh now).2.2
    (retried_make_request userBeh now).2.2

/-- The decoded payload of the README endpoint as `get_repository_readme`
uses it: an optional base64 `content` field. -/
structure ReadmeData where
  content : Option String

/-- `GitHubAPIClient.get_repository_readme` (lines 294-332) as a function
of the outcome of its single retried `_make_request` call.  The base64 +
UTF-8 decoding of line 321 is an external stdlib capability and is passed
in as `decode`.  `except GitHubAPIError` (line 328) catches
`GitHubAPIError` and `RateLimitError`; the caught error is swallowed into
`None` exactly when `"not found" in str(e).lower()` (line 329). -/
def get_repository_readme (decode : String → String)
    (res : Except PyExc ReadmeData) : Except PyExc (Option String) :=
  match res with
  | .ok data =>
    match data.content with
    | some c => .ok (some (decode c))
    | none => .ok none
  | .error e =>
    match e with
    | .requestException => .error .requestException
    | _ =>
      if strContains (strLower (excMsg e)) "not found" = true then .ok none
      else .error e

/-- An issue object as the issues loop inspects it: an identifier plus
whether the object carries a `'pull_request'` field (line 379). -/
abbrev Issue := ℕ × Bool

/-- The `while True` loop of `GitHubAPIClient.get_repository_issues`
(lines 361-389).  Identical loop shape to `reposLoop`, except that each
page is filtered to drop entries carrying a `'pull_request'` field
(line 379) before being accumulated; the short-page test at line 382 uses
the unfiltered page length. -/
def issuesLoop (pageResult : ℕ → Except PyExc (List Issue)) (pp : ℕ) :
    ℕ → ℕ → List Issue → ℕ → Except PyExc (List Issue) × ℕ
  | fuel, page, acc, reqs =>
    match pageResult page with
    | .error e => (.error e, reqs + 1)
    | .ok data =>
      if data.isEmpty then (.ok acc, reqs + 1)
      else
        let filtered := data.filter fun i => !i.2
        if data.length < pp then (.ok (acc ++ filtered), reqs + 1)
        else
          match fuel with
          | 0 => (.ok (acc ++ filtered), reqs + 1)
          | f + 1 => issuesLoop pageResult pp f (page + 1) (acc ++ filtered) (reqs + 1)

/-- `GitHubAPIClient.get_repository_issues` pagination (lines 334-392);
parameter validation (lines 350-354) precedes the loop and raises
`ValueError` before any request, so it is not part of the loop model. -/
def get_repository_issues (pageResult : ℕ → Except PyExc (List Issue))
    (perPage : ℕ) : Except PyExc (List Issue) × ℕ :=
  issuesLoop pageResult (min perPage 100) 99 1 [] 0

/-- A single mocked issues page: 3 issue objects and 2 objects carrying a
`'pull_request'` field, then no further data. -/
def mixedIssuePage : ℕ → Except PyExc (List Issue) :=
  fun page =>
    if page = 1 then .ok [(0, false), (1, true), (2, false), (3, true), (4, false)]
    else .ok []

/-- The decoded payload of the search endpoint as `search_repositories`
uses it: optional `total_count` and `items` fields (`none` models a
missing key). -/
structure SearchData where
  total_count : Option ℕ
  items : Option (List ℕ)
deriving DecidableEq

/-- `GitHubAPIClient.search_repositories` (lines 503-550) as a function of
the outcome of its single retried `_make_request` call: a decoded payload
with both `total_count` and `items` present is returned as-is (line 547);
otherwise `{'total_count': 0, 'items': []}` is returned (line 550).
Query/sort/order validation (lines 524-531) raises `ValueError` before any
request and is not part of this model. -/
def search_repositories (res : Except PyExc SearchData) :
    Except PyExc SearchData :=
  match res with
  | .error e => .error e
  | .ok data =>
    if data.total_count.isSome ∧ data.items.isSome then .ok data
    else .ok { total_count := some 0, items := some [] }

/-- The `while len(repositories) < max_results` loop of
`GitHubAPIClient.search_repositories_paginated` (lines 569-611).
`pageResult perPage page` is the outcome of the retried
`self._make_request("search/repositories", params)` call;
`some items`/`none` model the presence/absence of the `'items'` key
(line 588).  The log records each request as
`(current_per_page, page)`.  The `try`/`except GitHubAPIError` of lines
585-608 turns a caught error whose message mentions `"rate limit"` into a
`break` (line 607) and re-raises anything else; a raw requests exception
is not caught.  `fuel` counts the page increments still allowed before the
`page > 10` check at line 600 fires (`fuel = 10 - page`). -/
def searchLoop (pageResult : ℕ → ℕ → Except PyExc (Option (List ℕ)))
    (maxResults perPage : ℕ) :
    ℕ → List ℕ → ℕ → List (ℕ × ℕ) → Except PyExc (List ℕ) × List (ℕ × ℕ)
  | fuel, repos, page, log =>
    if repos.length < maxResults then
      let current := min perPage (maxResults - repos.length)
      let log' := log ++ [(current, page)]
      match pageResult current page with
      | .error e =>
        match e with
        | .requestException => (.error .requestException, log')
        | _ =>
          if strContains (strLower (excMsg e)) "rate limit" = true then
            (.ok repos, log')
          else (.error e, log')
      | .ok none => (.ok repos, log')
      | .ok (some items) =>
        if items.isEmpty then (.ok repos, log')
        else
          if items.length < current then (.ok (repos ++ items), log')
          else if 10 < page + 1 then (.ok (repos ++ items), log')
          else
            match fuel with
            | 0 => (.ok (repos ++ items), log')
            | f + 1 =>
              searchLoop pageResult maxResults perPage f (repos ++ items) (page + 1) log'
    else (.ok repos, log)

/-- `GitHubAPIClient.search_repositories_paginated` (lines 552-611):
`per_page = min(100, max_results)` (line 571), starting at page 1 with an
empty accumulator.  Returns the result together with the request log. -/
def search_repositories_paginated
    (pageResult : ℕ → ℕ → Except PyExc (Option (List ℕ))) (maxResults : ℕ) :
    Except PyExc (List ℕ) × List (ℕ × ℕ) :=
  searchLoop pageResult maxResults (min 100 maxResults) 9 [] 1 []

/-- A search provider that always returns a full page of exactly the
requested size (items represented by zeros). -/
def fullSearchPages : ℕ → ℕ → Except PyExc (Option (List ℕ)) :=
  fun req _ => .ok (some (List.replicate req 0))

/-- A search provider that serves a full first page and then signals rate
limiting (the post-retry outcome of the governor surfacing a
`RateLimitError`). -/
def rlAfterFirstPage : ℕ → ℕ → Except PyExc (Option (List ℕ)) :=
  fun req page =>
    if page = 1 then .ok (some (List.replicate req 0))
    else .error (.rateLimitError (rateLimitMsg 30))

/-- Outcome taxonomy of the response interpreter as the specification
states it (spec §3, §4.2): RateLimited carrying `max(0, reset − now)`,
NotFound, Generic carrying status and body text, Malformed, or the decoded
payload. -/
inductive SpecOutcome (α : Type) where
  | rateLimited (wait : ℤ)
  | notFound
  | generic (status : ℕ) (body : String)
  | malformed
  | decoded (payload : α)

/-- Response interpretation following the specification's ordered rules
(spec §4.2): rate-limit check first (status 403 and body text indicating
rate-limit exhaustion, with `wait = max(0, reset − now)`), then 404, then
any other non-success status (success meaning `response.ok`, i.e. status
< 400), then payload decoding. -/
def interpretSpec (resp : HttpResponse α) (now : ℤ) : SpecOutcome α :=
  if resp.status = 403 ∧ strContains (strLower resp.text) "rate limit exceeded" = true then
    .rateLimited (max 0 (resp.rateLimitReset.getD 0 - now))
  else if resp.status = 404 then .notFound
  else if 400 ≤ resp.status then .generic resp.status resp.text
  else
    match resp.jsonData with
    | some d => .decoded d
    | none => .malformed

/-- How each spec-level outcome is realised by the code: as a Python
return value or exception with the module's exact message strings. -/
def encodeOutcome (resp : HttpResponse α) : SpecOutcome α → Except PyExc α
  | .rateLimited w => .error (.rateLimitError (rateLimitMsg w.toNat))
  | .notFound => .error (.gitHubAPIError (notFoundMsg resp.url))
  | .generic s b => .error (.gitHubAPIError (genericMsg s b))
  | .malformed => .error (.gitHubAPIError (invalidJsonMsg resp.jsonErr))
  | .decoded d => .ok d

/-- A 403 response whose body announces rate-limit exhaustion, used as a
concrete transport behaviour. -/
def rateLimited403 : HttpResponse Unit :=
  { status := 403, rateLimitRemaining := some 0, rateLimitReset := some 100
  , text := "API rate limit exceeded for 127.0.0.1.", url := "u"
  , jsonData := none, jsonErr := "" }

/-- A 500 response, used as a concrete transport behaviour. -/
def serverError500 : HttpResponse Unit :=
  { status := 500, rateLimitRemaining := none, rateLimitReset := none
  , text := "oops", url := "u", jsonData := none, jsonErr := "" }

deriving instance DecidableEq for Except

/-- An attempt outcome that the retry decorator's `except` clause at line
55 would catch: a failure that is a `requests.exceptions.RequestException`
or a `RateLimitError`. -/
def failsRetryably (r : Except PyExc α) : Prop :=
  ∃ e, r = .error e ∧ isRetryable e = true

/-! Helper lemmas about the string model. -/

theorem isPrefixOf_append_left (n h r : List Char) (hp : n.isPrefixOf h = true) :
    n.isPrefixOf (h ++ r) = true := by
  rw [ List.isPrefixOf_iff_prefix] at hp ⊢
  obtain ⟨s, rfl⟩ := hp
  exact ⟨s ++ r, by rw [List.append_assoc]⟩

theorem hasSubstr_of_isPrefixOf (h n : List Char) (hp : n.isPrefixOf h = true) :
    hasSubstr h n = true := by
  cases h with
  | nil => simpa [hasSubstr] using hp
  | cons c t => simp [hasSubstr, hp]

theorem hasSubstr_append_left (h r n : List Char) (hh : hasSubstr h n = true) :
    hasSubstr (h ++ r) n = true := by
  induction h with
  | nil =>
    simp only [hasSubstr] at hh
    have : n = [] := by
      cases n with
      | nil => rfl
      | cons a m => simp at hh
    subst this
    cases r <;> simp [hasSubstr, List.isPrefixOf]
  | cons c t ih =>
    simp only [hasSubstr, Bool.or_eq_true] at hh
    rcases hh with hp | hs
    · simp only [List.cons_append, hasSubstr, Bool.or_eq_true]
      exact Or.inl (isPrefixOf_append_left _ _ _ hp)
    · simp only [List.cons_append, hasSubstr, Bool.or_eq_true]
      exact Or.inr (ih hs)

theorem strLower_data (s : String) : (strLower s).data = s.data.map Char.toLower := rfl

/-- Every rate-limit message produced at line 131 mentions `"rate limit"`
once lowercased, whatever the wait time — so the check at line 605 always
recognises it. -/
theorem rateLimitMsg_mentions_rate_limit (w : ℕ) :
    strContains (strLower (rateLimitMsg w)) "rate limit" = true := by
  have hd : (rateLimitMsg w).data
      = "Rate limit exceeded. Try again in ".data ++ ((toString w).data ++ " seconds.".data) := by
    simp [rateLimitMsg, String.data_append, List.append_assoc]
  show hasSubstr (strLower (rateLimitMsg w)).data "rate limit".data = true
  rw [strLower_data, hd, List.map_append]
  apply hasSubstr_of_isPrefixOf
  apply isPrefixOf_append_left
  decide

/-- Every not-found message produced at line 134 mentions `"not found"`
once lowercased, whatever the URL — so the check at line 329 always
recognises it. -/
theorem notFoundMsg_mentions_not_found (url : String) :
    strContains (strLower (notFoundMsg url)) "not found" = true := by
  show hasSubstr (strLower (notFoundMsg url)).data "not found".data = true
  rw [strLower_data]
  show hasSubstr (("Resource not found: ".data ++ url.data).map Char.toLower) _ = true
  rw [List.map_append]
  apply hasSubstr_append_left
  decide

/-- Any operation whose every attempt fails retryably runs through all
four attempts of the default governor, sleeping `1 * 2^attempt` seconds
after attempts 0, 1 and 2, and surfaces the final attempt's failure. -/
theorem retry_allRetryable (α : Type) (op : ℕ → Except PyExc α)
    (h : ∀ i, ∃ e, op i = .error e ∧ isRetryable e = true) :
    retry_with_exponential_backoff 3 1 op = ([1, 2, 4], 4, op 3) := by
  obtain ⟨e0, he0, hr0⟩ := h 0
  obtain ⟨e1, he1, hr1⟩ := h 1
  obtain ⟨e2, he2, hr2⟩ := h 2
  obtain ⟨e3, he3, hr3⟩ := h 3
  simp [retry_with_exponential_backoff, retryLoop, he0, he1, he2, he3, hr0, hr1, hr2, hr3]
  norm_num

/-- C1: the claim says Transient failures (network error, timeout, 5xx)
are retried with backoff while attempts remain.  The code does not do
this: `_make_request` converts a `Timeout`/`ConnectionError` into a plain
`GitHubAPIError` (lines 164-167) and `_handle_response` turns a 5xx into
a plain `GitHubAPIError` (line 139), and the decorator's `except` clause
(line 55) catches only `RequestException` and `RateLimitError` — so these
failures propagate from the very first attempt, with no retry and no
sleep.  Only the rate-limit branch behaves as claimed.  This theorem
evaluates the code at the failing inputs: a persistently timing-out
transport and a persistent 500 each make exactly one attempt and sleep
never, while a persistent 403 rate-limit response is retried with sleeps
1s, 2s, 4s. -/
theorem c1_transient_failures_not_retried :
    (retried_make_request (fun _ => TransportResult.timeout (α := Unit)) 0 =
        ([], 1, .error (.gitHubAPIError "Request timeout")))
  ∧ (retried_make_request (fun _ => TransportResult.ok serverError500) 0 =
        ([], 1, .error (.gitHubAPIError (genericMsg 500 "oops"))))
  ∧ (retried_make_request (fun _ => TransportResult.ok rateLimited403) 0 =
        ([1, 2, 4], 4, .error (.rateLimitError (rateLimitMsg 100)))) := by
  refine ⟨by decide, by decide, ?_⟩
  have hstep : ∀ i, make_request (fun _ => TransportResult.ok rateLimited403) 0 i
      = .error (.rateLimitError (rateLimitMsg 100)) := by
    intro i
    show handle_response rateLimited403 0 = _
    decide
  have := retry_allRetryable Unit (make_request (fun _ => TransportResult.ok rateLimited403) 0)
    (fun i => ⟨_, hstep i, by decide⟩)
  rw [retried_make_request, this, hstep 3]

/-- C5: with `base_delay = 1.0` and the default budget (`max_retries = 3`,
i.e. four attempts), a persistently failing retryable operation observes
sleeps of exactly 1s, 2s, 4s (`base_delay * 2^attempt`, attempt starting
at 0) between its four attempts, and the final allowed attempt's failure
propagates as-is with no further sleep. -/
theorem c5_retry_backoff_sequence (α : Type) (op : ℕ → Except PyExc α)
    (h : ∀ i, failsRetryably (op i)) :
    retry_with_exponential_backoff 3 1 op = ([1, 2, 4], 4, op 3) :=
  retry_allRetryable α op h

/-- Witness for C5 at a concrete persistently rate-limited operation. -/
theorem c5_retry_backoff_sequence_witness :
    retry_with_exponential_backoff 3 1
        (fun _ => (.error (.rateLimitError (rateLimitMsg 5)) : Except PyExc Unit)) =
      ([1, 2, 4], 4, .error (.rateLimitError (rateLimitMsg 5))) :=
  c5_retry_backoff_sequence Unit _ (fun _ => ⟨_, rfl, rfl⟩)

/-- Evaluation of the pagination loop at its natural stopping page
`N / P + 1`: the provider serves either an empty page (when `P` divides
`N`) or a short page of `N % P` items, so the loop stops after one more
request with all `N` items accumulated. -/
theorem reposLoop_fixedTotal_last (N P : ℕ) (hP : 0 < P) (fuel reqs : ℕ) (acc : List ℕ) :
    reposLoop (fixedTotalPages N P) P fuel (N / P + 1) acc reqs =
      (.ok (acc ++ (List.range N).drop (N / P * P)), reqs + 1) := by
  have key : N / P * P + N % P = N := by
    rw [Nat.mul_comm]
    exact Nat.div_add_mod N P
  have hmlt : N % P < P := Nat.mod_lt _ hP
  rw [reposLoop]
  simp only [fixedTotalPages, Nat.add_sub_cancel]
  have hlen : ((List.range N).drop (N / P * P)).length = N % P := by
    simp only [List.length_drop, List.length_range]
    omega
  by_cases hz : N % P = 0
  · have hdrop : (List.range N).drop (N / P * P) = [] := by
      apply List.drop_eq_nil_of_le
      simp only [List.length_range]
      omega
    rw [hdrop]
    simp
  · have htake : ((List.range N).drop (N / P * P)).take P
        = (List.range N).drop (N / P * P) := by
      apply List.take_of_length_le
      omega
    rw [htake]
    have hne : ((List.range N).drop (N / P * P)).isEmpty = false := by
      simp only [List.isEmpty_eq_false, ne_eq]
      intro hnil
      rw [hnil] at hlen
      simp at hlen
      omega
    rw [hne]
    simp only [Bool.false_eq_true, if_false]
    rw [if_pos (by omega : ((List.range N).drop (N / P * P)).length < P)]

/-- Running the pagination loop against the fixed-total provider from any
page `1 ≤ page ≤ N / P + 1`, with enough fuel to reach the stopping page:
it appends exactly the not-yet-served items and makes
`N / P + 2 - page` further page requests. -/
theorem reposLoop_fixedTotal (N P : ℕ) (hP : 0 < P) :
    ∀ (fuel page reqs : ℕ) (acc : List ℕ),
      1 ≤ page → page ≤ N / P + 1 → N / P + 1 ≤ page + fuel →
      reposLoop (fixedTotalPages N P) P fuel page acc reqs =
        (.ok (acc ++ (List.range N).drop ((page - 1) * P)), reqs + (N / P + 2 - page)) := by
  intro fuel
  induction fuel with
  | zero =>
    intro page reqs acc h1 h2 h3
    have hpage : page = N / P + 1 := by omega
    subst hpage
    rw [reposLoop_fixedTotal_last N P hP]
    simp only [Nat.add_sub_cancel, Prod.mk.injEq]
    exact ⟨trivial, by omega⟩
  | succ f ih =>
    intro page reqs acc h1 h2 h3
    by_cases hlast : page = N / P + 1
    · subst hlast
      rw [reposLoop_fixedTotal_last N P hP]
      simp only [Nat.add_sub_cancel, Prod.mk.injEq]
      exact ⟨trivial, by omega⟩
    · have hple : page ≤ N / P := by omega
      have hmul : (page - 1) * P + P = page * P := by
        cases page with
        | zero => omega
        | succ p => simp [Nat.succ_sub_one, Nat.succ_mul]
      have hfull : page * P ≤ N := by
        calc page * P ≤ N / P * P := Nat.mul_le_mul_right P hple
        _ ≤ N := Nat.div_mul_le_self N P
      have hlen : ((List.range N).drop ((page - 1) * P)).length = N - (page - 1) * P := by
        simp only [List.length_drop, List.length_range]
      have hPle : P ≤ N - (page - 1) * P := by omega
      have hlentake : (((List.range N).drop ((page - 1) * P)).take P).length = P := by
        simp only [List.length_take]
        omega
      rw [reposLoop]
      simp only [fixedTotalPages]
      have hne : (((List.range N).drop ((page - 1) * P)).take P).isEmpty = false := by
        simp only [List.isEmpty_eq_false, ne_eq]
        intro hnil
        rw [hnil] at hlentake
        simp at hlentake
        omega
      rw [hne]
      simp only [Bool.false_eq_true, if_false]
      rw [hlentake, if_neg (lt_irrefl P)]
      rw [ih (page + 1) (reqs + 1) (acc ++ ((List.range N).drop ((page - 1) * P)).take P)
        (by omega) (by omega) (by omega)]
      have hsplit : ((List.range N).drop ((page - 1) * P)).take P
          ++ (List.range N).drop ((page + 1 - 1) * P)
          = (List.range N).drop ((page - 1) * P) := by
        have hdd : (List.range N).drop ((page + 1 - 1) * P)
            = ((List.range N).drop ((page - 1) * P)).drop P := by
          rw [List.drop_drop, Nat.add_sub_cancel, hmul]
        rw [hdd, List.take_append_drop]
      rw [List.append_assoc, hsplit]
      have harith : reqs + 1 + (N / P + 2 - (page + 1)) = reqs + (N / P + 2 - page) := by
        omega
      rw [harith]

/-- The pagination loop never makes more than `reqs + fuel + 1` page
requests, whatever the provider does. -/
theorem reposLoop_reqs_le (pageResult : ℕ → Except PyExc (List ℕ)) (pp : ℕ) :
    ∀ (fuel page : ℕ) (acc : List ℕ) (reqs : ℕ),
      (reposLoop pageResult pp fuel page acc reqs).2 ≤ reqs + fuel + 1 := by
  intro fuel
  induction fuel with
  | zero =>
    intro page acc reqs
    rw [reposLoop]
    cases pageResult page with
    | error e => simp
    | ok data =>
      by_cases h1 : data.isEmpty = true <;> by_cases h2 : data.length < pp <;>
        simp [h1, h2]
  | succ f ih =>
    intro page acc reqs
    rw [reposLoop]
    cases pageResult page with
    | error e => simp
    | ok data =>
      by_cases h1 : data.isEmpty = true
      · simp [h1]
      · by_cases h2 : data.length < pp
        · simp [h1, h2]
        · simp only [h1, h2, Bool.false_eq_true, if_false]
          calc (reposLoop pageResult pp f (page + 1) (acc ++ data) (reqs + 1)).2
              ≤ reqs + 1 + f + 1 := ih (page + 1) (acc ++ data) (reqs + 1)
          _ = reqs + (f + 1) + 1 := by omega

/-- C2 (amended): for a provider with a fixed total of `N` items in pages
of size `P` (`1 ≤ P ≤ 100`, `N / P ≤ 99`), `get_repositories` returns
exactly the `N` items and makes exactly `N / P + 1` page requests — which
is `ceil(N/P)` when `P` does not divide `N` but `ceil(N/P) + 1` when it
does, because a final full page forces one extra request that comes back
empty; and against every provider behaviour whatsoever it never makes
more than `hardPageCeiling = 100` page requests. -/
theorem c2_pagination_request_count :
    (∀ N P, 1 ≤ P → P ≤ 100 → N / P ≤ 99 →
       get_repositories (fixedTotalPages N P) P = (.ok (List.range N), N / P + 1))
  ∧ ∀ pageResult pp, (get_repositories pageResult pp).2 ≤ 100 := by
  constructor
  · intro N P h1 h2 h3
    have hnn : 0 ≤ N / P := Nat.zero_le _
    rw [get_repositories, Nat.min_eq_left h2]
    rw [reposLoop_fixedTotal N P (by omega) 99 1 0 []
      (le_refl 1) (Nat.le_add_left 1 _) (by omega)]
    simp only [Nat.sub_self, Nat.zero_mul, List.drop_zero, List.nil_append, Prod.mk.injEq]
    exact ⟨trivial, by omega⟩
  · intro pageResult pp
    have h := reposLoop_reqs_le pageResult (min pp 100) 99 1 [] 0
    simpa [get_repositories] using h

/-- C2 counterexample: with `N = 2` items in pages of size `P = 1`, the
code makes 3 page requests (pages `[0]`, `[1]`, then an empty page 3),
not `ceil(2/1) = 2` as the claim states. -/
theorem c2_counterexample_exact_ceil : (get_repositories (fixedTotalPages 2 1) 1).2 ≠ 2 := by decide

/-- Witness for C2 at `N = 250`, `P = 100`: all 250 items in
`250 / 100 + 1 = 3` requests. -/
theorem c2_pagination_request_count_witness :
    get_repositories (fixedTotalPages 250 100) 100 = (.ok (List.range 250), 3) := by
  have := c2_pagination_request_count.1 250 100 (by norm_num) (by norm_num) (by norm_num)
  simpa using this

theorem int_toNat_max_zero (x : ℤ) : (max 0 x).toNat = x.toNat := by
  rcases le_total x 0 with h | h
  · rw [max_eq_left h, Int.toNat_of_nonpos h, Int.toNat_zero]
  · rw [max_eq_right h]

/-- C6: for every HTTP response, `_handle_response` produces exactly the
one outcome prescribed by the spec's ordered, mutually exclusive checks:
403 with a rate-limit body yields RateLimited with
`wait = max(0, reset − now)` (taking priority over generic 403 handling),
then 404 yields NotFound, then any other non-success status yields
Generic with the status and body text, then an undecodable body yields
Malformed, and otherwise the decoded payload is returned.
`interpretSpec` is the spec-side classifier and `encodeOutcome` maps each
spec outcome to the exception/value the code uses for it. -/
theorem c6_response_classification (α : Type) (resp : HttpResponse α) (now : ℤ) :
    handle_response resp now = encodeOutcome resp (interpretSpec resp now) := by
  unfold handle_response interpretSpec waitTime
  split_ifs with h1 h2 h3
  · simp [encodeOutcome, int_toNat_max_zero]
  · rfl
  · rfl
  · cases resp.jsonData <;> rfl

/-- C3 counterexample: when both probes suffer a Transient failure (a
request timeout on every attempt), `_detect_owner_type` reports the
owner-not-found error — a Transient failure IS misclassified as the owner
not existing, because the converted `GitHubAPIError("Request timeout")`
is caught by the same `except GitHubAPIError` that catches a 404. -/
theorem c3_counterexample_transient_misclassified :
    detect_owner_type_net "octo" (fun _ => .timeout) (fun _ => .timeout) 0 =
      .error (.gitHubAPIError (ownerNotFoundMsg "octo")) := by decide

/-- C3 (amended): `_detect_owner_type` probes the organization endpoint
first and classifies as `"org"` if it succeeds; otherwise, provided the
failure is a `GitHubAPIError` (which includes NotFound, RateLimited,
Generic, Malformed and the converted transient timeout/connection
failures), it probes the user endpoint and classifies as `"user"` if that
succeeds; when both probes fail with `GitHubAPIError`s — whatever their
classification, transient ones included — it raises the owner-not-found
error; only a raw requests exception propagates unchanged.  So a
Transient failure surfaced as a converted `GitHubAPIError` can be
misclassified as the owner not existing. -/
theorem c3_owner_type_resolution :
    (∀ name v userRes, detect_owner_type name (.ok v) userRes = .ok "org")
  ∧ (∀ name e v, isGHErr e = true →
       detect_owner_type name (.error e) (.ok v) = .ok "user")
  ∧ (∀ name e e2, isGHErr e = true → isGHErr e2 = true →
       detect_owner_type name (.error e) (.error e2) =
         .error (.gitHubAPIError (ownerNotFoundMsg name)))
  ∧ (∀ name userRes,
       detect_owner_type name (.error .requestException) userRes =
         .error .requestException)
  ∧ (∀ name e, isGHErr e = true →
       detect_owner_type name (.error e) (.error .requestException) =
         .error .requestException) := by
  refine ⟨fun name v userRes => rfl, ?_, ?_, fun name userRes => rfl, ?_⟩
  · intro name e v he
    cases e with
    | rateLimitError m => rfl
    | gitHubAPIError m => rfl
    | requestException => simp [isGHErr] at he
  · intro name e e2 he he2
    cases e with
    | requestException => simp [isGHErr] at he
    | rateLimitError m =>
      cases e2 with
      | requestException => simp [isGHErr] at he2
      | rateLimitError m2 => rfl
      | gitHubAPIError m2 => rfl
    | gitHubAPIError m =>
      cases e2 with
      | requestException => simp [isGHErr] at he2
      | rateLimitError m2 => rfl
      | gitHubAPIError m2 => rfl
  · intro name e he
    cases e with
    | rateLimitError m => rfl
    | gitHubAPIError m => rfl
    | requestException => simp [isGHErr] at he

/-- Witness for C3 at two transient probe outcomes. -/
theorem c3_owner_type_resolution_witness :
    detect_owner_type "octo" (.error (.gitHubAPIError "Request timeout"))
        (.error (.gitHubAPIError "Request timeout")) =
      .error (.gitHubAPIError (ownerNotFoundMsg "octo")) :=
  c3_owner_type_resolution.2.2.1 "octo" _ _ rfl rfl

set_option maxRecDepth 4000 in
/-- C4: whenever the search pager's next page request comes back as a
RateLimited failure (the retried request surfacing a `RateLimitError`,
whose message always mentions rate limiting), the pager stops and returns
the items accumulated so far as a normal result — the failure is neither
raised nor propagated.  The second conjunct checks the spec's concrete
scenario: a full first page of 100 and a rate-limit failure on the second
request yield the first 100 items without an error. -/
theorem c4_search_rate_limit_soft_stop :
    (∀ (pageResult : ℕ → ℕ → Except PyExc (Option (List ℕ))) M perPage fuel
        (repos : List ℕ) page log w,
        repos.length < M →
        pageResult (min perPage (M - repos.length)) page =
          .error (.rateLimitError (rateLimitMsg w)) →
        searchLoop pageResult M perPage fuel repos page log =
          (.ok repos, log ++ [(min perPage (M - repos.length), page)]))
  ∧ search_repositories_paginated rlAfterFirstPage 250 =
      (.ok (List.replicate 100 0), [(100, 1), (100, 2)]) := by
  constructor
  · intro pageResult M perPage fuel repos page log w hlt hbeh
    rw [searchLoop]
    rw [if_pos hlt]
    simp only [hbeh, excMsg]
    rw [if_pos (rateLimitMsg_mentions_rate_limit w)]
  · decide

/-- Witness for C4 at a concrete rate-limited request. -/
theorem c4_search_rate_limit_soft_stop_witness :
    searchLoop (fun _ _ => .error (.rateLimitError (rateLimitMsg 7))) 5 3 2 [] 1 [] =
      (.ok [], [(3, 1)]) :=
  c4_search_rate_limit_soft_stop.1 _ 5 3 2 [] 1 [] 7 (by decide) rfl

set_option maxRecDepth 8000 in
/-- C7: `search_repositories_paginated` with `maxResults = 250` against a
provider serving full pages of the requested size makes exactly 3 page
requests, asking for 100, 100 and finally only the remaining 50 items,
and returns exactly 250 items; and in general the pager stops immediately
(making no further request) once the accumulator has reached
`maxResults`. -/
theorem c7_search_pagination_stop :
    (search_repositories_paginated fullSearchPages 250 =
        (.ok (List.replicate 250 0), [(100, 1), (100, 2), (50, 3)]))
  ∧ (∀ (pageResult : ℕ → ℕ → Except PyExc (Option (List ℕ))) M perPage fuel
        (repos : List ℕ) page log,
        M ≤ repos.length →
        searchLoop pageResult M perPage fuel repos page log = (.ok repos, log)) := by
  constructor
  · decide
  · intro pageResult M perPage fuel repos page log hle
    rw [searchLoop]
    rw [if_neg (by omega)]

/-- Witness for C7's stop condition at a concrete saturated state. -/
theorem c7_search_pagination_stop_witness :
    searchLoop fullSearchPages 0 0 5 [] 1 [] = (.ok [], []) :=
  c7_search_pagination_stop.2 fullSearchPages 0 0 5 [] 1 [] (by decide)

/-- Whenever the issues pagination loop returns successfully from an
accumulator free of pull requests, no element of its output carries a
`'pull_request'` field: every page is filtered before being appended. -/
theorem issuesLoop_no_pull_requests (pageResult : ℕ → Except PyExc (List Issue)) (pp : ℕ) :
    ∀ (fuel page : ℕ) (acc : List Issue) (reqs : ℕ) (l : List Issue) (r : ℕ),
      (∀ x ∈ acc, x.2 = false) →
      issuesLoop pageResult pp fuel page acc reqs = (.ok l, r) →
      ∀ x ∈ l, x.2 = false := by
  intro fuel
  induction fuel with
  | zero =>
    intro page acc reqs l r hacc heq
    rw [issuesLoop] at heq
    rcases hbeh : pageResult page with e | data <;> rw [hbeh] at heq <;>
      dsimp only at heq
    · simp at heq
    · split_ifs at heq with h1 h2
      · obtain ⟨hl, -⟩ := Prod.mk.injEq .. ▸ heq
        simp only [Except.ok.injEq] at hl
        subst hl
        exact hacc
      all_goals
        obtain ⟨hl, -⟩ := Prod.mk.injEq .. ▸ heq
        simp only [Except.ok.injEq] at hl
        subst hl
        intro x hx
        rcases List.mem_append.mp hx with hxa | hxf
        · exact hacc x hxa
        · have := (List.mem_filter.mp hxf).2
          simpa using this
  | succ f ih =>
    intro page acc reqs l r hacc heq
    rw [issuesLoop] at heq
    rcases hbeh : pageResult page with e | data <;> rw [hbeh] at heq <;>
      dsimp only at heq
    · simp at heq
    · split_ifs at heq with h1 h2
      · obtain ⟨hl, -⟩ := Prod.mk.injEq .. ▸ heq
        simp only [Except.ok.injEq] at hl
        subst hl
        exact hacc
      · obtain ⟨hl, -⟩ := Prod.mk.injEq .. ▸ heq
        simp only [Except.ok.injEq] at hl
        subst hl
        intro x hx
        rcases List.mem_append.mp hx with hxa | hxf
        · exact hacc x hxa
        · have := (List.mem_filter.mp hxf).2
          simpa using this
      · refine ih (page + 1) (acc ++ data.filter fun i => !i.2) (reqs + 1) l r ?_ heq
        intro x hx
        rcases List.mem_append.mp hx with hxa | hxf
        · exact hacc x hxa
        · have := (List.mem_filter.mp hxf).2
          simpa using this

/-- C8: `get_repository_issues` excludes every entry carrying a
`'pull_request'` field and returns all remaining entries.  Concretely, a
page of 3 issue objects and 2 pull-request objects yields exactly those 3
issues in one request; and in general every successful run's output
contains no entry with a `'pull_request'` field. -/
theorem c8_issues_filter_pull_requests :
    (get_repository_issues mixedIssuePage 100 =
        (.ok [(0, false), (2, false), (4, false)], 1))
  ∧ (∀ (pageResult : ℕ → Except PyExc (List Issue)) perPage fuel page
        (acc : List Issue) reqs l r,
        (∀ x ∈ acc, x.2 = false) →
        issuesLoop pageResult perPage fuel page acc reqs = (.ok l, r) →
        ∀ x ∈ l, x.2 = false) :=
  ⟨by decide, fun pageResult perPage fuel page acc reqs l r =>
    issuesLoop_no_pull_requests pageResult perPage fuel page acc reqs l r⟩

/-- C9 counterexample: a Generic failure (status 500) whose body text
happens to contain `"not found"` is also swallowed into `None` by the
string-matching check at line 329, instead of propagating as the claim
states for every non-NotFound classified failure. -/
theorem c9_counterexample_generic_swallowed :
    get_repository_readme id
        (.error (.gitHubAPIError (genericMsg 500 "backend not found"))) =
      .ok none := by decide

/-- C9 (amended): `get_repository_readme` returns an explicit absence
(`None`) whenever the provider reports NotFound — the raised message
`"Resource not found: <url>"` always matches the `"not found"` check —
and more generally whenever any caught `GitHubAPIError`'s message
contains `"not found"` case-insensitively; a caught failure without that
phrase, and any raw requests exception, still propagates. -/
theorem c9_readme_not_found_absence :
    (∀ (decode : String → String) url,
        get_repository_readme decode (.error (.gitHubAPIError (notFoundMsg url))) =
          .ok none)
  ∧ (∀ (decode : String → String) e, isGHErr e = true →
        strContains (strLower (excMsg e)) "not found" = false →
        get_repository_readme decode (.error e) = .error e)
  ∧ (∀ (decode : String → String) e, isGHErr e = true →
        strContains (strLower (excMsg e)) "not found" = true →
        get_repository_readme decode (.error e) = .ok none)
  ∧ (∀ decode : String → String,
        get_repository_readme decode (.error .requestException) =
          .error .requestException) := by
  refine ⟨?_, ?_, ?_, fun decode => rfl⟩
  · intro decode url
    show (if strContains (strLower (notFoundMsg url)) "not found" = true
        then (.ok none : Except PyExc (Option String)) else .error (.gitHubAPIError (notFoundMsg url))) = .ok none
    rw [if_pos (notFoundMsg_mentions_not_found url)]
  · intro decode e hgh hcont
    cases e with
    | requestException => simp [isGHErr] at hgh
    | rateLimitError m =>
      simp only [excMsg] at hcont
      show (if strContains (strLower m) "not found" = true
          then (.ok none : Except PyExc (Option String)) else .error (.rateLimitError m)) = _
      rw [if_neg (by simp [hcont])]
    | gitHubAPIError m =>
      simp only [excMsg] at hcont
      show (if strContains (strLower m) "not found" = true
          then (.ok none : Except PyExc (Option String)) else .error (.gitHubAPIError m)) = _
      rw [if_neg (by simp [hcont])]
  · intro decode e hgh hcont
    cases e with
    | requestException => simp [isGHErr] at hgh
    | rateLimitError m =>
      simp only [excMsg] at hcont
      show (if strContains (strLower m) "not found" = true
          then (.ok none : Except PyExc (Option String)) else .error (.rateLimitError m)) = _
      rw [if_pos hcont]
    | gitHubAPIError m =>
      simp only [excMsg] at hcont
      show (if strContains (strLower m) "not found" = true
          then (.ok none : Except PyExc (Option String)) else .error (.gitHubAPIError m)) = _
      rw [if_pos hcont]

/-- Witness for C9 at a concrete NotFound outcome. -/
theorem c9_readme_not_found_absence_witness :
    get_repository_readme id
        (.error (.gitHubAPIError (notFoundMsg "https://api.github.com/repos/o/r/readme"))) =
      .ok none :=
  c9_readme_not_found_absence.1 id "https://api.github.com/repos/o/r/readme"

/-- C10: for every successfully decoded search payload,
`search_repositories` returns a payload carrying both `total_count` and
`items`; when either key is missing it returns
`{'total_count': 0, 'items': []}` instead of raising. -/
theorem c10_search_defaults_on_missing_keys :
    (∀ d : SearchData, ∃ d', search_repositories (.ok d) = .ok d'
        ∧ d'.total_count.isSome = true ∧ d'.items.isSome = true)
  ∧ (∀ d : SearchData, d.total_count = none ∨ d.items = none →
        search_repositories (.ok d) =
          .ok { total_count := some 0, items := some [] }) := by
  constructor
  · intro d
    by_cases h : d.total_count.isSome ∧ d.items.isSome
    · exact ⟨d, by simp [search_repositories, h], h.1, h.2⟩
    · refine ⟨{ total_count := some 0, items := some [] }, by simp [search_repositories, h], rfl, rfl⟩
  · intro d h
    have hn : ¬ (d.total_count.isSome ∧ d.items.isSome) := by
      rcases h with h | h <;> simp [h]
    simp [search_repositories, hn]

/-- Witness for C10 at a payload missing `total_count`. -/
theorem c10_search_defaults_on_missing_keys_witness :
    search_repositories (.ok { total_count := none, items := some [7] }) =
      .ok { total_count := some 0, items := some [] } :=
  c10_search_defaults_on_missing_keys.2 { total_count := none, items := some [7] } (Or.inl rfl)

/-- Witness for C8's invariant at a concrete loop run. -/
theorem c8_issues_filter_pull_requests_witness : ((7 : ℕ), false).2 = false :=
  c8_issues_filter_pull_requests.2 (fun _ => .ok []) 100 0 1 [(7, false)] 0
    [(7, false)] 1 (by decide) rfl (7, false) (by simp)
